import Mathlib

/-!
# `api/security_service.go`: `FetchRootCACert` and `GenerateRSACert`

A shallow embedding of the two operations of `SecurityService`.

* A Go `error` is modelled by its message (`String`); `nil` is `none`.
* A Go pointer or interface value that may be `nil` is an `Option`.
* A call that panics yields `Outcome.panicked`.
* Calls into the Go standard library (`http.NewRequest`, `httputil.DumpResponse`,
  the syntax phase of `json.Unmarshal`, `rand.Int`, `time.Now`, `pem.Decode`,
  `x509.ParseCertificate`, `x509.CreateCertificate`) and the injected client are
  parameters: the theorems hold for whatever they return.
* The calls made on the injected client and on the response body are recorded, in
  order, in a list of events; a `Close` that `httputil.DumpResponse` makes on the
  body it was handed is recorded too.
-/

set_option linter.unusedVariables false

namespace api

/-! ## Data model -/

/-- The result of running a Go function: it returns, or it panics with a value. -/
inductive Outcome (α : Type) where
  | returned (value : α)
  | panicked (value : String)
  deriving DecidableEq, Repr

/-- The panic value of a nil pointer dereference. -/
def nilDereference : String :=
  "runtime error: invalid memory address or nil pointer dereference"

/-- An `io.ReadCloser` holding a finite stream: reading it to the end yields
`data`, and then either end-of-file (`readErr = none`) or the error `readErr`. -/
structure Body where
  data : String
  readErr : Option String
  deriving DecidableEq, Repr

/-- The part of `url.URL` the service and its tests look at. -/
structure URL where
  Path : String
  deriving DecidableEq, Repr

/-- The part of `http.Request` the service and its tests look at. -/
structure Request where
  Method : String
  URL : URL
  Body : Option Body
  deriving DecidableEq, Repr

/-- The part of `http.Response` the service looks at. -/
structure Response where
  StatusCode : Int
  Body : Option Body
  deriving DecidableEq, Repr

/-- The interface `httpClient`: one method `Do`, returning a response pointer
and an error. -/
structure httpClient where
  Do : Request → Option Response × Option String

/-- The struct `SecurityService`. -/
structure SecurityService where
  client : httpClient

/-- The constructor `NewSecurityService`. -/
def NewSecurityService (client : httpClient) : SecurityService :=
  { client := client }

/-- The struct `certResponse`; its field `Cert` carries the tag
`json:"root_ca_certificate_pem"` (see `certResponse.tag`). -/
structure certResponse where
  Cert : String
  deriving DecidableEq, Repr

/-- The JSON key of the field `Cert`, from its struct tag. -/
def certResponse.tag : String := "root_ca_certificate_pem"

/-- A JSON value, as the syntax phase of `json.Unmarshal` sees it. A number is
kept as its literal. -/
inductive Json where
  | null
  | bool (b : Bool)
  | num (literal : String)
  | str (s : String)
  | arr (items : List Json)
  | obj (members : List (String × Json))

/-- The name `encoding/json` gives a JSON value in a type error. -/
def Json.kind : Json → String
  | .null => "null"
  | .bool _ => "bool"
  | .num _ => "number"
  | .str _ => "string"
  | .arr _ => "array"
  | .obj _ => "object"

/-- Calls a call can make on its collaborators: `client.Do(request)` and
`response.Body.Close()`. -/
inductive Event where
  | Do (request : Request)
  | Close (body : Body)
  deriving DecidableEq, Repr

/-- A finished call: how it ended and the calls it made, in order. -/
structure Run (α : Type) where
  outcome : Outcome α
  events : List Event

/-- The standard-library calls of `FetchRootCACert`, as parameters.
`DumpResponse` gives the dump or its error, and whether it called `Close` on the
body of the response it was handed (`httputil.DumpResponse` does so once it has
read that body to the end).
`jsonSyntax` is the syntax phase of `json.Unmarshal`: it rejects a body that is
not a JSON text with the decoder's message, and otherwise yields the value. -/
structure HttpLib where
  NewRequest : String → String → Option Body → Except String Request
  DumpResponse : Response → Bool → Except String String × Bool
  jsonSyntax : String → Except String Json

/-! ## `FetchRootCACert` -/

/-- The constant `http.StatusOK`. -/
def StatusOK : Int := 200

/-- The function `ioutil.ReadAll` on a finite stream: the data, or the error the
stream ends with. -/
def ReadAll (body : Body) : Except String String :=
  match body.readErr with
  | none => .ok body.data
  | some err => .error err

/-- Whether a JSON key selects the field `Cert`: `encoding/json` takes an exact
match of the tag, else a case-insensitive one. (The tag has no letter with a
non-ASCII case fold, so folding ASCII letters is enough.) -/
def certResponse.matches (key : String) : Bool :=
  key == certResponse.tag || key.toLower == certResponse.tag.toLower

/-- The state of decoding into a `certResponse`: the value so far and the first
type error saved. -/
structure DecodeState where
  value : certResponse
  savedError : Option String

/-- One member of the JSON object: a string sets `Cert`, `null` leaves it, any
other value saves a type error (the first one is kept); a key that is not the
field is skipped. -/
def decodeMember (st : DecodeState) (member : String × Json) : DecodeState :=
  if certResponse.matches member.1 then
    match member.2 with
    | .str s => { st with value := { Cert := s } }
    | .null => st
    | v =>
      match st.savedError with
      | some _ => st
      | none =>
        { st with savedError := some ("json: cannot unmarshal " ++ v.kind ++
            " into Go struct field certResponse." ++ certResponse.tag ++ " of type string") }
  else st

/-- The decoding phase of `json.Unmarshal(output, &certResponse)` for a value
that starts as the zero `certResponse`. -/
def decodeCertResponse (v : Json) : Except String certResponse :=
  match v with
  | .null => .ok { Cert := "" }
  | .obj members =>
    let st := members.foldl decodeMember { value := { Cert := "" }, savedError := none }
    match st.savedError with
    | some err => .error err
    | none => .ok st.value
  | other =>
    .error ("json: cannot unmarshal " ++ other.kind ++ " into Go value of type api.certResponse")

/-- The call `json.Unmarshal(output, &certResponse)`: syntax check, then
decoding into the struct. -/
def Unmarshal (lib : HttpLib) (output : String) : Except String certResponse :=
  match lib.jsonSyntax output with
  | .error err => .error err
  | .ok v => decodeCertResponse v

/-- Lines 41 to 60 of `FetchRootCACert`: what runs between the `defer` and the
return. -/
def FetchRootCACert.afterDefer (lib : HttpLib) (response : Response) (body : Body) :
    String × Option String :=
  if response.StatusCode ≠ StatusOK then
    match (lib.DumpResponse response true).1 with
    | .error err => ("", some ("request failed: unexpected response: " ++ err))
    | .ok out => ("", some ("could not make api request: unexpected response.\n" ++ out))
  else
    match ReadAll body with
    | .error err => ("", some err)
    | .ok output =>
      match Unmarshal lib output with
      | .error err => ("", some ("failed to unmarshal response: " ++ err))
      | .ok certResponse => (certResponse.Cert, none)

/-- The calls made on the response body between the `defer` and the return:
on the path of a status other than 200, the `Close` of `httputil.DumpResponse`
if it made one; `ioutil.ReadAll` and `json.Unmarshal` make none. -/
def FetchRootCACert.libraryCloses (lib : HttpLib) (response : Response) (body : Body) :
    List Event :=
  if response.StatusCode ≠ StatusOK then
    if (lib.DumpResponse response true).2 then [.Close body] else []
  else []

/-- The method `SecurityService.FetchRootCACert`. The deferred
`response.Body.Close()` has its receiver bound at the `defer` statement and
runs after the rest of the body, on every path that passed the `defer`. -/
def FetchRootCACert (lib : HttpLib) (s : SecurityService) : Run (String × Option String) :=
  match lib.NewRequest "GET" "/api/v0/security/root_ca_certificate" none with
  | .error err =>
    { outcome := .returned ("", some ("failed constructing request: " ++ err)), events := [] }
  | .ok request =>
    match s.client.Do request with
    | (_, some err) =>
      { outcome := .returned ("", some ("failed to submit request: " ++ err)),
        events := [.Do request] }
    | (none, none) =>
      { outcome := .panicked nilDereference, events := [.Do request] }
    | (some response, none) =>
      match response.Body with
      | none => { outcome := .panicked nilDereference, events := [.Do request] }
      | some body =>
        { outcome := .returned (FetchRootCACert.afterDefer lib response body),
          events := [.Do request] ++ FetchRootCACert.libraryCloses lib response body ++
            [.Close body] }

/-- The requests handed to `client.Do`, in order. -/
def doCalls : List Event → List Request
  | [] => []
  | .Do request :: rest => request :: doCalls rest
  | .Close _ :: rest => doCalls rest

/-- How many times `Close` was called on `body`. -/
def closeCount (body : Body) (events : List Event) : Nat :=
  events.count (.Close body)

/-- A Go error message contains `sub`. -/
def containsSubstring (msg sub : String) : Prop :=
  sub.data <:+: msg.data

/-! ## `GenerateRSACert` -/

/-- A Go byte slice. -/
abbrev Bytes := List Nat

/-- An instant (`time.Time`), in nanoseconds on the clock's own scale. -/
abbrev Time := Int

/-- A length of time (`time.Duration`), in nanoseconds. -/
abbrev Duration := Int

/-- The constant `time.Hour`. -/
def Hour : Duration := 60 * 60 * 1000000000

/-- The method `Time.Add`. -/
def Time.Add (t : Time) (d : Duration) : Time := t + d

/-- The struct `pkix.AttributeTypeAndValue`. -/
structure AttributeTypeAndValue where
  Type_ : List Nat
  Value : String
  deriving DecidableEq, Repr

/-- The struct `pkix.Name`; a field the composite literal leaves out has its
zero value. -/
structure Name where
  CommonName : String := ""
  Organization : List String := []
  Names : List AttributeTypeAndValue := []
  deriving DecidableEq, Repr

/-- The constant `x509.KeyUsageDigitalSignature` (`1 << 0`). -/
def KeyUsageDigitalSignature : Nat := 1

/-- The constant `x509.KeyUsageKeyEncipherment` (`1 << 2`). -/
def KeyUsageKeyEncipherment : Nat := 4

/-- The constant `x509.ExtKeyUsageServerAuth`. -/
def ExtKeyUsageServerAuth : Nat := 1

/-- The struct `x509.Certificate`, with the fields the service sets and the
ones its test reads back; a field the composite literal leaves out has its
zero value. -/
structure Certificate where
  SerialNumber : Int := 0
  Subject : Name := {}
  NotBefore : Time := 0
  NotAfter : Time := 0
  KeyUsage : Nat := 0
  ExtKeyUsage : List Nat := []
  BasicConstraintsValid : Bool := false
  DNSNames : List String := []
  deriving DecidableEq, Repr

/-- The struct `pem.Block`. -/
structure Block where
  Type_ : String
  Bytes : Bytes
  deriving DecidableEq, Repr

/-- The standard-library calls of `GenerateRSACert`, as parameters:
`randInt max` is `rand.Int(rand.Reader, max)`, `now n` is what the call number
`n` of `time.Now()` returns, `pemDecode` is `pem.Decode` (block pointer and
rest), `CreateCertificate` is called as the source calls it, with the template
and the parent. -/
structure CertLib where
  randInt : Nat → Except String Nat
  now : Nat → Time
  pemDecode : Bytes → Option Block × Bytes
  ParseCertificate : Bytes → Except String Certificate
  CreateCertificate : Certificate → Certificate → Except String Bytes

/-- The composite literal `template` of `GenerateRSACert` (lines 69 to 79); the
two `time.Now()` calls are evaluated in the order they are written. -/
def GenerateRSACert.template (lib : CertLib) (serialNumber : Nat) : Certificate :=
  { SerialNumber := serialNumber
    Subject := { Organization := ["Pivotal"] }
    NotBefore := lib.now 0
    NotAfter := (lib.now 1).Add (365 * 24 * Hour)
    KeyUsage := KeyUsageKeyEncipherment ||| KeyUsageDigitalSignature
    ExtKeyUsage := [ExtKeyUsageServerAuth]
    BasicConstraintsValid := true }

/-- The method `SecurityService.GenerateRSACert`. A `panic(err)` panics with the
error; `parentBlock.Bytes` on a nil block is a nil pointer dereference. -/
def GenerateRSACert (lib : CertLib) (s : SecurityService) (parent : Bytes)
    (domains : List String) : Outcome (Bytes × Option String) :=
  match lib.randInt (1 <<< 128) with
  | .error err => .panicked err
  | .ok serialNumber =>
    let template := GenerateRSACert.template lib serialNumber
    match (lib.pemDecode parent).1 with
    | none => .panicked nilDereference
    | some parentBlock =>
      match lib.ParseCertificate parentBlock.Bytes with
      | .error err => .panicked err
      | .ok parentCert =>
        match lib.CreateCertificate template parentCert with
        | .error err => .panicked err
        | .ok cert => .returned (cert, none)

/-! ## Fixtures

Concrete collaborators, after the fakes of `security_service_test.go`. -/

/-- The fake client of the tests after `DoReturns(response, err)`. -/
def fakes.HttpClient (response : Option Response) (err : Option String) : httpClient :=
  { Do := fun _ => (response, err) }

/-- The body `ioutil.NopCloser(strings.NewReader(data))`. -/
def NopCloser (data : String) : Body :=
  { data := data, readErr := none }

/-- A body whose read fails with `unexpected EOF` before any data. -/
def brokenBody : Body :=
  { data := "", readErr := some "unexpected EOF" }

/-- The response of the test "returns error if response fails to unmarshal". -/
def garbledResponse : Response :=
  { StatusCode := 200, Body := some (NopCloser "%%%") }

/-- The response of the test "returns error when response contains non-200
status code". -/
def teapotResponse : Response :=
  { StatusCode := 418, Body := some (NopCloser "\x7b\x7d") }

/-- The request `FetchRootCACert` builds. -/
def getRequest : Request :=
  { Method := "GET", URL := { Path := "/api/v0/security/root_ca_certificate" }, Body := none }

/-- A JSON syntax phase that knows the bodies of the tests. -/
def testJsonSyntax (data : String) : Except String Json :=
  if data = "\x7b\"root_ca_certificate_pem\": \"some-response-cert\"\x7d" then
    .ok (.obj [("root_ca_certificate_pem", .str "some-response-cert")])
  else if data = "\x7b\x7d" then
    .ok (.obj [])
  else
    .error "invalid character \x27%\x27 looking for beginning of value"

/-- A library for the tests: `NewRequest` builds the request from its
arguments, `DumpResponse` fails with the read error of the body if it has one
and else closes the body and gives the status code and the body; it leaves a
nil body alone. -/
def testLib : HttpLib :=
  { NewRequest := fun method url body =>
      .ok { Method := method, URL := { Path := url }, Body := body },
    DumpResponse := fun response _ =>
      (match response.Body with
      | none => (.ok (toString response.StatusCode), false)
      | some body =>
        match body.readErr with
        | some err => (.error err, false)
        | none => (.ok (toString response.StatusCode ++ "\r\n\r\n" ++ body.data), true)),
    jsonSyntax := testJsonSyntax }

/-- A parent certificate, standing for the CA of the test. -/
def caTemplate : Certificate :=
  { SerialNumber := 1234
    Subject := { CommonName := "ca.localhost", Organization := ["Pivotal"] }
    BasicConstraintsValid := true }

/-- A library for the tests of `GenerateRSACert`: the serial is 7, the clock
ticks one nanosecond per read, the parent bytes `[1]` hold a block that parses,
`[2]` a block that does not, anything else no block; the encoder answers with
the serial number of the template. -/
def testCertLib : CertLib :=
  { randInt := fun _ => .ok 7,
    now := fun n => n,
    pemDecode := fun parent =>
      if parent = [1] then (some { Type_ := "CERTIFICATE", Bytes := [48] }, [])
      else if parent = [2] then (some { Type_ := "CERTIFICATE", Bytes := [0] }, [])
      else (none, parent),
    ParseCertificate := fun der =>
      if der = [48] then .ok caTemplate else .error "asn1: structure error",
    CreateCertificate := fun template _ => .ok [48, template.SerialNumber.toNat] }

/-! ## Lemmas -/

/-- The message `pre ++ rest` contains `pre`. -/
theorem containsSubstring_append_left (pre rest : String) :
    containsSubstring (pre ++ rest) pre := by
  unfold containsSubstring
  rw [String.data_append]
  exact List.infix_append' [] pre.data rest.data

/-- A message that contains `mid ++ tail` contains `mid`. -/
theorem containsSubstring_of_append (msg mid tail : String)
    (h : containsSubstring msg (mid ++ tail)) : containsSubstring msg mid := by
  unfold containsSubstring at *
  rw [String.data_append] at h
  exact List.IsInfix.trans (List.infix_append' [] mid.data tail.data) h

/-- The constant `365 * 24 * time.Hour` fits the 64-bit `time.Duration`. -/
theorem year_fits_int64 : 365 * 24 * Hour < 2 ^ 63 := by
  decide

/-- The library calls between the `defer` and the return hand no request to the
client. -/
theorem doCalls_libraryCloses (lib : HttpLib) (response : Response) (body : Body) :
    doCalls (FetchRootCACert.libraryCloses lib response body) = [] := by
  unfold FetchRootCACert.libraryCloses
  split
  · split <;> rfl
  · rfl

/-- The requests in a log that starts with one `Do`, goes on with calls on the
body and ends with a `Close`. -/
theorem doCalls_log (request : Request) (middle : List Event) (body : Body)
    (h : doCalls middle = []) :
    doCalls ([.Do request] ++ middle ++ [.Close body]) = [request] := by
  have happ : ∀ l : List Event, doCalls l = [] → doCalls (l ++ [.Close body]) = [] := by
    intro l
    induction l with
    | nil => intro _; rfl
    | cons e rest ih =>
      cases e with
      | Do r => intro hl; simp [doCalls] at hl
      | Close b => intro hl; simpa [doCalls] using ih (by simpa [doCalls] using hl)
  show request :: doCalls (middle ++ [.Close body]) = [request]
  rw [happ middle h]

/-- After a successful submission with a body, `FetchRootCACert` returns what the
code after the `defer` yields, and its calls are the `Do`, what the library
calls did to the body, and then the deferred `Close`. -/
theorem FetchRootCACert_of_response (lib : HttpLib) (s : SecurityService)
    (request : Request) (response : Response) (body : Body)
    (hnew : lib.NewRequest "GET" "/api/v0/security/root_ca_certificate" none = .ok request)
    (hdo : s.client.Do request = (some response, none))
    (hbody : response.Body = some body) :
    FetchRootCACert lib s =
      { outcome := .returned (FetchRootCACert.afterDefer lib response body),
        events := [.Do request] ++ FetchRootCACert.libraryCloses lib response body ++
          [.Close body] } := by
  simp only [FetchRootCACert, hnew, hdo, hbody]

/-! ## `FetchRootCACert`: the claims -/

/-- C1: for every string `S`, when the client answers without error with status
200 and a body that reads to the end and is the JSON object
`{"root_ca_certificate_pem": S}`, `FetchRootCACert` returns exactly `S` and a nil
error. -/
theorem FetchRootCACert_returns_cert (lib : HttpLib) (s : SecurityService)
    (request : Request) (response : Response) (body : Body) (S : String)
    (hnew : lib.NewRequest "GET" "/api/v0/security/root_ca_certificate" none = .ok request)
    (hdo : s.client.Do request = (some response, none))
    (hstatus : response.StatusCode = 200)
    (hbody : response.Body = some body)
    (hread : body.readErr = none)
    (hjson : lib.jsonSyntax body.data = .ok (.obj [("root_ca_certificate_pem", .str S)])) :
    (FetchRootCACert lib s).outcome = .returned (S, none) := by
  rw [FetchRootCACert_of_response lib s request response body hnew hdo hbody]
  have hmatch : certResponse.matches "root_ca_certificate_pem" = true := by decide
  simp [FetchRootCACert.afterDefer, hstatus, StatusOK, ReadAll, hread, Unmarshal, hjson,
    decodeCertResponse, decodeMember, hmatch]

/-- The test "gets the root CA cert", as an instance of C1. -/
theorem FetchRootCACert_returns_cert_witness :
    (FetchRootCACert testLib (NewSecurityService (fakes.HttpClient
      (some { StatusCode := 200,
              Body := some (NopCloser
                "\x7b\"root_ca_certificate_pem\": \"some-response-cert\"\x7d") })
      none))).outcome = .returned ("some-response-cert", none) :=
  FetchRootCACert_returns_cert testLib _ getRequest _ _ "some-response-cert"
    rfl rfl rfl rfl rfl rfl

/-- C2, as amended: for every status other than 200 and every response with a
body (not nil) whose dump succeeds, `FetchRootCACert` returns the empty string
and an error whose message is
"could not make api request: unexpected response.\n" followed by the dump, so
it contains "could not make api request: unexpected response". -/
theorem FetchRootCACert_unexpected_status (lib : HttpLib) (s : SecurityService)
    (request : Request) (response : Response) (body : Body) (out : String)
    (hnew : lib.NewRequest "GET" "/api/v0/security/root_ca_certificate" none = .ok request)
    (hdo : s.client.Do request = (some response, none))
    (hstatus : response.StatusCode ≠ 200)
    (hbody : response.Body = some body)
    (hdump : (lib.DumpResponse response true).1 = .ok out) :
    (FetchRootCACert lib s).outcome =
        .returned ("", some ("could not make api request: unexpected response.\n" ++ out)) ∧
      containsSubstring ("could not make api request: unexpected response.\n" ++ out)
        "could not make api request: unexpected response" := by
  rw [FetchRootCACert_of_response lib s request response body hnew hdo hbody]
  constructor
  · simp [FetchRootCACert.afterDefer, hstatus, StatusOK, hdump]
  · apply containsSubstring_of_append _ _ ".\n"
    exact containsSubstring_append_left _ out

/-- The test "returns error when response contains non-200 status code", as an
instance of C2 as amended. -/
theorem FetchRootCACert_unexpected_status_witness :
    (FetchRootCACert testLib (NewSecurityService (fakes.HttpClient
      (some { StatusCode := 418, Body := some (NopCloser "\x7b\x7d") }) none))).outcome =
        .returned ("", some ("could not make api request: unexpected response.\n" ++
          "418\r\n\r\n\x7b\x7d")) ∧
      containsSubstring ("could not make api request: unexpected response.\n" ++
          "418\r\n\r\n\x7b\x7d")
        "could not make api request: unexpected response" :=
  FetchRootCACert_unexpected_status testLib _ getRequest _ (NopCloser "\x7b\x7d") _
    rfl rfl (by decide) rfl rfl

/-- C2, as stated, fails: the client answers without error with status 418 and
a body whose read fails, the dump fails with the read error, and
`FetchRootCACert` returns "request failed: unexpected response: unexpected EOF",
which does not contain "could not make api request: unexpected response". -/
theorem FetchRootCACert_unexpected_status_counterexample :
    (fakes.HttpClient (some { StatusCode := 418, Body := some brokenBody }) none).Do getRequest
        = (some { StatusCode := 418, Body := some brokenBody }, none) ∧
      (418 : Int) ≠ 200 ∧
      (FetchRootCACert testLib (NewSecurityService (fakes.HttpClient
        (some { StatusCode := 418, Body := some brokenBody }) none))).outcome =
          .returned ("", some "request failed: unexpected response: unexpected EOF") ∧
      ¬ containsSubstring "request failed: unexpected response: unexpected EOF"
          "could not make api request: unexpected response" := by
  refine ⟨rfl, by decide, rfl, ?_⟩
  unfold containsSubstring
  decide

/-- C3: for every transport error `E` that `Do` returns, whatever response comes
with it (a nil one too), `FetchRootCACert` returns the empty string and an
error whose message is exactly "failed to submit request: " followed by `E`. -/
theorem FetchRootCACert_submit_error (lib : HttpLib) (s : SecurityService)
    (request : Request) (response : Option Response) (E : String)
    (hnew : lib.NewRequest "GET" "/api/v0/security/root_ca_certificate" none = .ok request)
    (hdo : s.client.Do request = (response, some E)) :
    (FetchRootCACert lib s).outcome =
      .returned ("", some ("failed to submit request: " ++ E)) := by
  simp only [FetchRootCACert, hnew, hdo]

/-- The test "returns error if request fails to submit", as an instance of C3. -/
theorem FetchRootCACert_submit_error_witness :
    (FetchRootCACert testLib (NewSecurityService (fakes.HttpClient
      (some { StatusCode := 0, Body := none }) (some "some-error")))).outcome =
        .returned ("", some "failed to submit request: some-error") :=
  FetchRootCACert_submit_error testLib _ getRequest _ "some-error" rfl rfl

/-- C4: for every response with status 200 whose body reads to the end and is
rejected by `json.Unmarshal` with detail `D`, `FetchRootCACert` returns the empty
string and an error whose message is "failed to unmarshal response: " followed
by `D`; that message contains "failed to unmarshal response:". -/
theorem FetchRootCACert_unmarshal_error (lib : HttpLib) (s : SecurityService)
    (request : Request) (response : Response) (body : Body) (output D : String)
    (hnew : lib.NewRequest "GET" "/api/v0/security/root_ca_certificate" none = .ok request)
    (hdo : s.client.Do request = (some response, none))
    (hstatus : response.StatusCode = 200)
    (hbody : response.Body = some body)
    (hread : ReadAll body = .ok output)
    (hdecode : Unmarshal lib output = .error D) :
    (FetchRootCACert lib s).outcome =
        .returned ("", some ("failed to unmarshal response: " ++ D)) ∧
      containsSubstring ("failed to unmarshal response: " ++ D)
        "failed to unmarshal response:" := by
  rw [FetchRootCACert_of_response lib s request response body hnew hdo hbody]
  constructor
  · simp [FetchRootCACert.afterDefer, hstatus, StatusOK, hread, hdecode]
  · apply containsSubstring_of_append _ _ " "
    exact containsSubstring_append_left _ D

/-- The test "returns error if response fails to unmarshal", as an instance of
C4. -/
theorem FetchRootCACert_unmarshal_error_witness :
    (FetchRootCACert testLib (NewSecurityService (fakes.HttpClient
      (some { StatusCode := 200, Body := some (NopCloser "%%%") }) none))).outcome =
        .returned ("", some ("failed to unmarshal response: " ++
          "invalid character \x27%\x27 looking for beginning of value")) ∧
      containsSubstring ("failed to unmarshal response: " ++
          "invalid character \x27%\x27 looking for beginning of value")
        "failed to unmarshal response:" :=
  FetchRootCACert_unmarshal_error testLib _ getRequest _ (NopCloser "%%%") "%%%" _
    rfl rfl rfl rfl rfl rfl

/-- C5: whatever the client answers, the calls of `client.Do` that
`FetchRootCACert` makes are exactly one, and the request handed over is the one
`http.NewRequest` built for method GET, path
"/api/v0/security/root_ca_certificate" and a nil body. -/
theorem FetchRootCACert_request (lib : HttpLib) (s : SecurityService)
    (hnew : lib.NewRequest "GET" "/api/v0/security/root_ca_certificate" none =
      .ok { Method := "GET", URL := { Path := "/api/v0/security/root_ca_certificate" },
            Body := none }) :
    doCalls (FetchRootCACert lib s).events =
      [{ Method := "GET", URL := { Path := "/api/v0/security/root_ca_certificate" },
         Body := none }] := by
  simp only [FetchRootCACert, hnew]
  split
  · rfl
  · rfl
  · split
    · rfl
    · exact doCalls_log _ _ _ (doCalls_libraryCloses lib _ _)

/-- The requests the fake client of the test "gets the root CA cert" received, as
an instance of C5. -/
theorem FetchRootCACert_request_witness :
    doCalls (FetchRootCACert testLib (NewSecurityService (fakes.HttpClient
      (some { StatusCode := 200,
              Body := some (NopCloser
                "\x7b\"root_ca_certificate_pem\": \"some-response-cert\"\x7d") })
      none))).events =
      [{ Method := "GET", URL := { Path := "/api/v0/security/root_ca_certificate" },
         Body := none }] :=
  FetchRootCACert_request testLib _ rfl

/-- C8, at the failing input: the client answers without error with status 200
and a body whose read fails with "unexpected EOF"; `FetchRootCACert` returns the
empty string and the read error as it is, with no prefix. -/
theorem FetchRootCACert_read_error_bare :
    (FetchRootCACert testLib (NewSecurityService (fakes.HttpClient
      (some { StatusCode := 200, Body := some brokenBody }) none))).outcome =
        .returned ("", some "unexpected EOF") := by
  rfl

/-- C9, as amended: on every path after a successful submission with a
response body (success, status other than 200, body read error, JSON decode
error), `FetchRootCACert` returns, and by then the body has been closed: the
deferred `Close` is the last call. With status 200 that is the only `Close`.
With another status the body is closed once if the dump did not close it and
twice if it did. -/
theorem FetchRootCACert_closes_body (lib : HttpLib) (s : SecurityService)
    (request : Request) (response : Response) (body : Body)
    (hnew : lib.NewRequest "GET" "/api/v0/security/root_ca_certificate" none = .ok request)
    (hdo : s.client.Do request = (some response, none))
    (hbody : response.Body = some body) :
    (∃ r, (FetchRootCACert lib s).outcome = .returned r) ∧
      (FetchRootCACert lib s).events.getLast? = some (.Close body) ∧
      1 ≤ closeCount body (FetchRootCACert lib s).events ∧
      (response.StatusCode = 200 → closeCount body (FetchRootCACert lib s).events = 1) ∧
      (response.StatusCode ≠ 200 →
        closeCount body (FetchRootCACert lib s).events =
          if (lib.DumpResponse response true).2 then 2 else 1) := by
  rw [FetchRootCACert_of_response lib s request response body hnew hdo hbody]
  refine ⟨⟨_, rfl⟩, ?_, ?_, ?_, ?_⟩
  · show ([Event.Do request] ++ FetchRootCACert.libraryCloses lib response body ++
        [Event.Close body]).getLast? = some (.Close body)
    rw [List.getLast?_append]
    rfl
  · simp [closeCount]
  · intro hstatus
    simp [closeCount, FetchRootCACert.libraryCloses, hstatus, StatusOK]
  · intro hstatus
    cases hflag : (lib.DumpResponse response true).2 <;>
      simp [closeCount, FetchRootCACert.libraryCloses, hstatus, StatusOK, hflag]

/-- The test "returns error if response fails to unmarshal", as an instance of
C9 as amended: the call returns and the body is closed once, by the last
call. -/
theorem FetchRootCACert_closes_body_witness :
    (∃ r, (FetchRootCACert testLib (NewSecurityService
        (fakes.HttpClient (some garbledResponse) none))).outcome = .returned r) ∧
      (FetchRootCACert testLib (NewSecurityService
        (fakes.HttpClient (some garbledResponse) none))).events.getLast?
          = some (.Close (NopCloser "%%%")) ∧
      1 ≤ closeCount (NopCloser "%%%") (FetchRootCACert testLib (NewSecurityService
        (fakes.HttpClient (some garbledResponse) none))).events ∧
      (garbledResponse.StatusCode = 200 →
        closeCount (NopCloser "%%%") (FetchRootCACert testLib (NewSecurityService
          (fakes.HttpClient (some garbledResponse) none))).events = 1) ∧
      (garbledResponse.StatusCode ≠ 200 →
        closeCount (NopCloser "%%%") (FetchRootCACert testLib (NewSecurityService
          (fakes.HttpClient (some garbledResponse) none))).events =
            if (testLib.DumpResponse garbledResponse true).2 then 2 else 1) :=
  FetchRootCACert_closes_body testLib _ getRequest garbledResponse (NopCloser "%%%")
    rfl rfl rfl

/-- C9, as stated, fails: in the test "returns error when response contains
non-200 status code" (status 418, body `{}`) the submission succeeds, the dump
reads the body to the end and closes it, and the deferred `Close` closes it
again, so by the return the body has been closed twice, not once. -/
theorem FetchRootCACert_closes_body_counterexample :
    (fakes.HttpClient (some teapotResponse) none).Do getRequest
        = (some teapotResponse, none) ∧
      teapotResponse.Body = some (NopCloser "\x7b\x7d") ∧
      (FetchRootCACert testLib (NewSecurityService
        (fakes.HttpClient (some teapotResponse) none))).events =
          [.Do getRequest, .Close (NopCloser "\x7b\x7d"), .Close (NopCloser "\x7b\x7d")] ∧
      closeCount (NopCloser "\x7b\x7d") (FetchRootCACert testLib (NewSecurityService
        (fakes.HttpClient (some teapotResponse) none))).events = 2 ∧
      closeCount (NopCloser "\x7b\x7d") (FetchRootCACert testLib (NewSecurityService
        (fakes.HttpClient (some teapotResponse) none))).events ≠ 1 := by
  refine ⟨rfl, rfl, rfl, by decide, by decide⟩

/-! ## `GenerateRSACert`: the claims -/

/-- C6, on the code: `GenerateRSACert` never reads `domains`. Its result for
any list of DNS names is its result for the empty list, and the template it
hands to the encoder has no DNS names and no subject names, whatever the
serial number and the clock. -/
theorem GenerateRSACert_ignores_domains (lib : CertLib) (s : SecurityService)
    (parent : Bytes) (domains : List String) (serialNumber : Nat) :
    GenerateRSACert lib s parent domains = GenerateRSACert lib s parent [] ∧
      (GenerateRSACert.template lib serialNumber).DNSNames = [] ∧
      (GenerateRSACert.template lib serialNumber).Subject.Names = [] :=
  ⟨rfl, rfl, rfl⟩

/-- C7, as amended: when the second clock read is not earlier than the first,
the leaf template has `NotBefore < NotAfter`, and `NotAfter - NotBefore` is
365 × 24 hours plus the time between the two reads, so it is at least
365 × 24 hours. -/
theorem GenerateRSACert_validity (lib : CertLib) (serialNumber : Nat)
    (hclock : lib.now 0 ≤ lib.now 1) :
    (GenerateRSACert.template lib serialNumber).NotBefore <
        (GenerateRSACert.template lib serialNumber).NotAfter ∧
      (GenerateRSACert.template lib serialNumber).NotAfter -
          (GenerateRSACert.template lib serialNumber).NotBefore =
        365 * 24 * Hour + (lib.now 1 - lib.now 0) ∧
      365 * 24 * Hour ≤ (GenerateRSACert.template lib serialNumber).NotAfter -
          (GenerateRSACert.template lib serialNumber).NotBefore := by
  simp only [GenerateRSACert.template, Time.Add, Hour]
  refine ⟨?_, ?_, ?_⟩
  · linarith
  · ring
  · linarith

/-- A clock that ticks one nanosecond per read, as an instance of C7 as
amended. -/
theorem GenerateRSACert_validity_witness :
    testCertLib.now 0 ≤ testCertLib.now 1 ∧
      (GenerateRSACert.template testCertLib 7).NotBefore <
        (GenerateRSACert.template testCertLib 7).NotAfter ∧
      (GenerateRSACert.template testCertLib 7).NotAfter -
          (GenerateRSACert.template testCertLib 7).NotBefore =
        365 * 24 * Hour + (testCertLib.now 1 - testCertLib.now 0) ∧
      365 * 24 * Hour ≤ (GenerateRSACert.template testCertLib 7).NotAfter -
          (GenerateRSACert.template testCertLib 7).NotBefore :=
  ⟨by decide, GenerateRSACert_validity testCertLib 7 (by decide)⟩

/-- C7, as stated, fails: with a clock that reads 0 and then 1 nanosecond (the
second read not earlier than the first), `NotAfter - NotBefore` of the leaf
template is 365 × 24 hours and one nanosecond, not 365 × 24 hours. -/
theorem GenerateRSACert_validity_counterexample :
    testCertLib.now 0 ≤ testCertLib.now 1 ∧
      (GenerateRSACert.template testCertLib 7).NotAfter -
          (GenerateRSACert.template testCertLib 7).NotBefore = 365 * 24 * Hour + 1 ∧
      (GenerateRSACert.template testCertLib 7).NotAfter -
          (GenerateRSACert.template testCertLib 7).NotBefore ≠ 365 * 24 * Hour := by
  refine ⟨by decide, by decide, by decide⟩

/-- C10: `GenerateRSACert` never returns a non-nil error. Whenever it returns,
the error is nil and the bytes are what the encoder gave for the template and
the parsed parent; it panics when the random source fails, when the parent
bytes hold no PEM block, when the first block does not parse as a certificate,
and when the encoder fails; when none of the four happens it returns the
encoder's bytes with a nil error. -/
theorem GenerateRSACert_never_returns_error (lib : CertLib) (s : SecurityService)
    (parent : Bytes) (domains : List String) :
    (∀ cert err, GenerateRSACert lib s parent domains = .returned (cert, err) →
        err = none ∧
        ∃ serialNumber parentBlock parentCert,
          lib.randInt (1 <<< 128) = .ok serialNumber ∧
          (lib.pemDecode parent).1 = some parentBlock ∧
          lib.ParseCertificate parentBlock.Bytes = .ok parentCert ∧
          lib.CreateCertificate (GenerateRSACert.template lib serialNumber) parentCert
            = .ok cert) ∧
      (∀ e, lib.randInt (1 <<< 128) = .error e →
        GenerateRSACert lib s parent domains = .panicked e) ∧
      ((lib.pemDecode parent).1 = none →
        ∃ v, GenerateRSACert lib s parent domains = .panicked v) ∧
      (∀ parentBlock e, (lib.pemDecode parent).1 = some parentBlock →
        lib.ParseCertificate parentBlock.Bytes = .error e →
        ∃ v, GenerateRSACert lib s parent domains = .panicked v) ∧
      (∀ serialNumber parentBlock parentCert e,
        lib.randInt (1 <<< 128) = .ok serialNumber →
        (lib.pemDecode parent).1 = some parentBlock →
        lib.ParseCertificate parentBlock.Bytes = .ok parentCert →
        lib.CreateCertificate (GenerateRSACert.template lib serialNumber) parentCert
          = .error e →
        GenerateRSACert lib s parent domains = .panicked e) ∧
      (∀ serialNumber parentBlock parentCert cert,
        lib.randInt (1 <<< 128) = .ok serialNumber →
        (lib.pemDecode parent).1 = some parentBlock →
        lib.ParseCertificate parentBlock.Bytes = .ok parentCert →
        lib.CreateCertificate (GenerateRSACert.template lib serialNumber) parentCert
          = .ok cert →
        GenerateRSACert lib s parent domains = .returned (cert, none)) := by
  unfold GenerateRSACert
  refine ⟨?_, ?_, ?_, ?_, ?_, ?_⟩
  · intro cert err h
    cases hr : lib.randInt (1 <<< 128) with
    | error e => rw [hr] at h; cases h
    | ok serialNumber =>
      cases hp : (lib.pemDecode parent).1 with
      | none => rw [hr] at h; simp only [hp] at h; cases h
      | some parentBlock =>
        cases hc : lib.ParseCertificate parentBlock.Bytes with
        | error e => rw [hr] at h; simp only [hp, hc] at h; cases h
        | ok parentCert =>
          cases hk : lib.CreateCertificate (GenerateRSACert.template lib serialNumber)
              parentCert with
          | error e => rw [hr] at h; simp only [hp, hc, hk] at h; cases h
          | ok der =>
            rw [hr] at h
            simp only [hp, hc, hk] at h
            cases h
            exact ⟨rfl, serialNumber, parentBlock, parentCert, rfl, rfl, hc, hk⟩
  · intro e hr
    rw [hr]
  · intro hp
    cases hr : lib.randInt (1 <<< 128) with
    | error e => exact ⟨e, rfl⟩
    | ok serialNumber => exact ⟨nilDereference, by simp only [hp]⟩
  · intro parentBlock e hp hc
    cases hr : lib.randInt (1 <<< 128) with
    | error e0 => exact ⟨e0, rfl⟩
    | ok serialNumber => exact ⟨e, by simp only [hp, hc]⟩
  · intro serialNumber parentBlock parentCert e hr hp hc hk
    rw [hr]
    simp only [hp, hc, hk]
  · intro serialNumber parentBlock parentCert cert hr hp hc hk
    rw [hr]
    simp only [hp, hc, hk]

end api
